import Mathlib

/-!
Shallow embedding of the Parrot v1.5.1 firmware core
(`src/files/parrot.ino`, third revision in the bundle):
pulse accumulation, rate computation, severity classification,
health aggregation, LED state machine, HTTP status-line parsing,
and the two upload paths.  Machine unsigned arithmetic is modelled
on `Nat` with explicit reduction modulo `2^32` (AVR `unsigned long`)
or `2^8` (`byte`) where the code can overflow.
-/

namespace Parrot

/-! ## Configuration constants (from the `#define` block) -/

def CPM_NORMAL_MIN : Nat := 20
def CPM_NORMAL_MAX : Nat := 40
def CPM_WARN_THRESHOLD : Nat := 100
def CPM_DANGER_THRESHOLD : Nat := 275
def CPM_MAX_VALID : Nat := 50000
def LOG_PERIOD : Nat := 60000
def MAX_PERIOD : Nat := 60000
def RADMON_FAIL_TIMEOUT_MS : Nat := 15 * 60 * 1000
def ZERO_CPM_FAULT_COUNT : Nat := 3
def LED_FLASH_PERIOD : Nat := 500
def TEMP_WARN_THRESHOLD_C : ℚ := 50
def TEMP_HIGH_THRESHOLD_C : ℚ := 60

/-- `multiplier = MAX_PERIOD / LOG_PERIOD` as computed once in `setup()`. -/
def multiplier : Nat := MAX_PERIOD / LOG_PERIOD

/-- 2^32, the modulus of AVR `unsigned long` arithmetic. -/
def u32 : Nat := 4294967296

/-- Unsigned 32-bit subtraction `a - b` (as in `millis() - start`). -/
def usub32 (a b : Nat) : Nat := (a + (u32 - b % u32)) % u32

/-! ## Enumerations -/

/-- `enum RadState` -/
inductive RadState where
  | RAD_LOW
  | RAD_NORMAL
  | RAD_WARN
  | RAD_DANGER
deriving DecidableEq, Repr

/-- `enum FailReason` -/
inductive FailReason where
  | FAIL_NONE
  | FAIL_CONNECT
  | FAIL_NO_OK
  | FAIL_DHCP
deriving DecidableEq, Repr

export RadState (RAD_LOW RAD_NORMAL RAD_WARN RAD_DANGER)
export FailReason (FAIL_NONE FAIL_CONNECT FAIL_NO_OK FAIL_DHCP)

/-! ## Classifier -/

/-- `RadState getRadiationState(unsigned long cpmValue)` -/
def getRadiationState (cpmValue : Nat) : RadState :=
  if cpmValue ≥ CPM_DANGER_THRESHOLD then RAD_DANGER
  else if cpmValue ≥ CPM_WARN_THRESHOLD then RAD_WARN
  else if cpmValue ≥ CPM_NORMAL_MIN ∧ cpmValue ≤ CPM_NORMAL_MAX then RAD_NORMAL
  else RAD_LOW

/-! ## Rate computation and zero-streak tracking (from `loop()`) -/

/-- `cpm = counts * multiplier; if (cpm > CPM_MAX_VALID) cpm = 0;`
(the multiplication is AVR `unsigned long` arithmetic). -/
def computeCpm (rawCounts : Nat) : Nat :=
  let c := (rawCounts * multiplier) % u32
  if c > CPM_MAX_VALID then 0 else c

/-- Zero-count tracking in `loop()`:
`if (cpm == 0) { if (zeroCount < 255) zeroCount++; } else zeroCount = 0;`
— `zeroCount` is a `byte`, so the increment is modulo 2^8. -/
def updateZeroCount (zeroCount cpmv : Nat) : Nat :=
  if cpmv = 0 then (if zeroCount < 255 then (zeroCount + 1) % 256 else zeroCount)
  else 0

/-- The zero-count after a sequence of per-window rates. -/
def runZeroCount (z : Nat) (rates : List Nat) : Nat :=
  rates.foldl updateZeroCount z

/-! ## Device health model -/

/-- `struct DeviceHealth` -/
structure DeviceHealth where
  level : Nat
  radState : RadState
  sensorFault : Bool
  tempWarn : Bool
  tempHigh : Bool
  netOK : Bool
deriving DecidableEq, Repr

/-- `void updateHealthModel()`, made explicit in the globals it reads
(`cpm`, `zeroCount`, `interiorTempC`, `lastFailReason`,
`lastSuccessMillis`) and the current `millis()` value.  The float
temperature is modelled as a rational. -/
def updateHealthModel (cpm zeroCount : Nat) (interiorTempC : ℚ)
    (lastFailReason : FailReason) (lastSuccessMillis now : Nat) : DeviceHealth :=
  let radState := getRadiationState cpm
  let sensorFault := decide (zeroCount ≥ ZERO_CPM_FAULT_COUNT)
  let tempWarn := decide (interiorTempC ≥ TEMP_WARN_THRESHOLD_C ∧
                          interiorTempC < TEMP_HIGH_THRESHOLD_C)
  let tempHigh := decide (interiorTempC ≥ TEMP_HIGH_THRESHOLD_C)
  let netOK :=
    if lastFailReason = FAIL_DHCP then false
    else if lastSuccessMillis = 0 then false
    else decide (usub32 now lastSuccessMillis ≤ RADMON_FAIL_TIMEOUT_MS)
  let lvl1 := if !netOK then max 0 1 else 0
  let lvl2 := if sensorFault || tempWarn || decide (radState = RAD_WARN) then
                max lvl1 2 else lvl1
  let lvl3 := if tempHigh || decide (radState = RAD_DANGER) then
                max lvl2 3 else lvl2
  { level := lvl3, radState := radState, sensorFault := sensorFault,
    tempWarn := tempWarn, tempHigh := tempHigh, netOK := netOK }

/-! ## LED state machine -/

/-- The LED globals: channel levels (`HIGH = true`), flash flag, on/off
phase, and the last-toggle timestamp. -/
structure LedSt where
  ledR : Bool
  ledG : Bool
  ledB : Bool
  ledFlash : Bool
  ledOn : Bool
  ledLastToggle : Nat
deriving DecidableEq, Repr

/-- `applyLed()`: the levels actually driven onto the three pins. -/
def applyLed (st : LedSt) : Bool × Bool × Bool :=
  if st.ledOn then (st.ledR, st.ledG, st.ledB) else (false, false, false)

/-- `void setLedState(byte r, byte g, byte b, bool flash)` at time `now`. -/
def setLedState (r g b : Bool) (flash : Bool) (now : Nat) : LedSt :=
  { ledR := r, ledG := g, ledB := b, ledFlash := flash, ledOn := true,
    ledLastToggle := now }

/-- `void ledTick()` at time `now`. -/
def ledTick (now : Nat) (st : LedSt) : LedSt :=
  if !st.ledFlash then st
  else if usub32 now st.ledLastToggle ≥ LED_FLASH_PERIOD then
    { st with ledLastToggle := now, ledOn := !st.ledOn }
  else st

/-- `void updateStatusLED()`: selects the LED state from `health.level`. -/
def updateStatusLED (level : Nat) (now : Nat) : LedSt :=
  match level with
  | 3 => setLedState true false false true now
  | 2 => setLedState true false false false now
  | 1 => setLedState true true false false now
  | _ => setLedState false true false false now

/-! ## HTTP status-line parser -/

/-- The literal prefix `"HTTP/"` tested by `strncmp(line, "HTTP/", 5)`. -/
def httpMagic : List Char := ['H', 'T', 'T', 'P', '/']

/-- `strchr(line, ' ')` followed by `p + 1`: the characters after the
first space of the buffer read as a C string.  `strchr` stops at the
first NUL, so a NUL byte stored in the buffer before any space ends
the scan with `NULL` (the line is then skipped by the caller). -/
def afterFirstSpace : List Char → Option (List Char)
  | [] => none
  | c :: rest =>
    if c = ' ' then some rest
    else if c = Char.ofNat 0 then none
    else afterFirstSpace rest

/-- C `isspace` on the ASCII characters `atoi` skips. -/
def isSpaceChar (c : Char) : Bool :=
  c = ' ' || c = '\t' || c = '\n' || c = Char.ofNat 11 || c = Char.ofNat 12 ||
  c = '\r'

/-- Decimal-digit accumulation of C `atoi` (stops at the first
non-digit; overflow undefined behaviour not modelled). -/
def digitsToNat : List Char → Nat → Nat
  | [], acc => acc
  | c :: rest, acc =>
    if c.isDigit then digitsToNat rest (acc * 10 + (c.toNat - 48)) else acc

/-- C `atoi` on a character list. -/
def atoiInt (s : List Char) : Int :=
  match s.dropWhile isSpaceChar with
  | '-' :: t => -(digitsToNat t 0 : Int)
  | '+' :: t => (digitsToNat t 0 : Int)
  | t => (digitsToNat t 0 : Int)

/-- `int readHttpStatusCode(EthernetClient &c, unsigned long timeoutMs)`.
The byte stream the client delivers before the timeout expires (or the
connection drops) is the list `s`; `buf` is the `line[64]` buffer
contents (at most 63 characters are kept, `idx < sizeof(line) - 1`).
Stream exhaustion is the timeout/disconnect exit, which returns 0
because no status line was parsed. -/
def readHttpStatusCode : List Char → List Char → Int
  | [], _ => 0
  | c :: rest, buf =>
    if c = '\r' then readHttpStatusCode rest buf
    else if c = '\n' then
      if buf.take 5 = httpMagic then
        match afterFirstSpace buf with
        | some t => atoiInt t
        | none => readHttpStatusCode rest []
      else readHttpStatusCode rest []
    else if buf.length < 63 then readHttpStatusCode rest (buf ++ [c])
    else readHttpStatusCode rest buf

/-- The LF-terminated lines the parser completes (mirrors the buffer
discipline of `readHttpStatusCode`: CR skipped, lines truncated to 63
characters, an unterminated final line never tested). -/
def completedLines (buf : List Char) : List Char → List (List Char)
  | [] => []
  | c :: rest =>
    if c = '\r' then completedLines buf rest
    else if c = '\n' then buf :: completedLines [] rest
    else if buf.length < 63 then completedLines (buf ++ [c]) rest
    else completedLines buf rest

/-! ## Upload paths -/

/-- The network-outcome globals the two upload paths touch or read:
`lastFailReason`, `lastHttpStatusCode`, `hqHttpStatusCode`,
`lastSuccessMillis`. -/
structure NetSt where
  lastFailReason : FailReason
  lastHttpStatusCode : Int
  hqHttpStatusCode : Int
  lastSuccessMillis : Nat
deriving DecidableEq, Repr

/-- `void uploadToRadmon()` at time `now`: `connectOk` is the result of
`client.connect(server, 80)` and `response` the bytes the server sends
back before the 5 s parser timeout. -/
def uploadToRadmon (connectOk : Bool) (response : List Char) (now : Nat)
    (st : NetSt) : NetSt :=
  if connectOk then
    let statusCode := readHttpStatusCode response []
    if statusCode = 200 ∨ statusCode = 204 then
      { st with lastHttpStatusCode := statusCode,
                lastFailReason := FAIL_NONE,
                lastSuccessMillis := now }
    else
      { st with lastHttpStatusCode := statusCode,
                lastFailReason := FAIL_NO_OK }
  else
    { st with lastFailReason := FAIL_CONNECT, lastHttpStatusCode := 0 }

/-- `void sendStatusPing()`: `linkOn` is `Ethernet.linkStatus() == LinkON`,
`secretSet` is `API_SECRET[0] != 0`, `connectOk` the result of
`statusClient.connect`, and `response` the reply bytes.  The request
body is telemetry only; the sole global the function writes is
`hqHttpStatusCode`, and only on a successful connect. -/
def sendStatusPing (linkOn secretSet connectOk : Bool) (response : List Char)
    (st : NetSt) : NetSt :=
  if !linkOn then st
  else if !secretSet then st
  else if connectOk then
    { st with hqHttpStatusCode := readHttpStatusCode response [] }
  else st

/-! ## Pulse accumulator interleaving model -/

/-- Atomic events touching the shared `volatile unsigned long counts`:
the ISR increment `tube_impulse` (`counts++`), the main-loop read
`cpm = counts * multiplier` (capturing the raw count), and the
main-loop reset `counts = 0`.  The drain in `loop()` is the
read followed by the reset, with interrupts left enabled throughout. -/
inductive PulseEv where
  | pulse
  | read
  | reset
deriving DecidableEq, Repr

/-- Shared-counter state plus the raw value the last read captured. -/
structure PulseSt where
  counts : Nat
  drained : Nat
deriving DecidableEq, Repr

/-- Effect of one atomic event (`counts` wraps modulo 2^32). -/
def pulseStep (s : PulseSt) : PulseEv → PulseSt
  | PulseEv.pulse => { s with counts := (s.counts + 1) % u32 }
  | PulseEv.read => { s with drained := s.counts }
  | PulseEv.reset => { s with counts := 0 }

/-- Run a sequence of interleaved events. -/
def runPulse (s : PulseSt) (evs : List PulseEv) : PulseSt :=
  evs.foldl pulseStep s

/-- One drain window with `before` interrupt pulses before the read,
`mid` pulses between the read and the reset, and `after` pulses after
the reset — an arbitrary interleaving of the ISR with the two-step
drain. -/
def drainSchedule (before mid after : Nat) : List PulseEv :=
  List.replicate before PulseEv.pulse ++ [PulseEv.read] ++
  List.replicate mid PulseEv.pulse ++ [PulseEv.reset] ++
  List.replicate after PulseEv.pulse

/-- The claim that a drain loses and double-counts nothing: every pulse
of the window is accounted either in the drained value or in the
counter left for the next window. -/
def drainAccounted (init before mid after : Nat) : Prop :=
  let s := runPulse { counts := init, drained := 0 }
             (drainSchedule before mid after)
  s.drained + s.counts = init + (before + mid + after)

/-- Number of consecutive zero-rate windows at the end of a window
sequence (the spec's "fault streak" as counted over the history). -/
def trailingZeroWindows (rates : List Nat) : Nat :=
  (rates.reverse.takeWhile (fun r => r == 0)).length

/-! ## Helper lemmas -/

theorem updateZeroCount_zero (z : Nat) :
    updateZeroCount z 0 = if z < 255 then z + 1 else z := by
  unfold updateZeroCount
  split
  · split
    · next h => rw [Nat.mod_eq_of_lt (by omega)]
    · rfl
  · omega

theorem runZeroCount_cons (z a : Nat) (l : List Nat) :
    runZeroCount z (a :: l) = runZeroCount (updateZeroCount z a) l := rfl

theorem runZeroCount_replicate_zero (n : Nat) : ∀ z : Nat, z ≤ 255 →
    runZeroCount z (List.replicate n 0) = min (z + n) 255 := by
  induction n with
  | zero => intro z hz; simp [runZeroCount]; omega
  | succ n ih =>
    intro z hz
    rw [List.replicate_succ, runZeroCount_cons, updateZeroCount_zero]
    split
    · rw [ih (z + 1) (by omega)]; omega
    · rw [ih z hz]; omega

theorem runZeroCount_trailing (rates : List Nat) :
    runZeroCount 0 rates = min (trailingZeroWindows rates) 255 := by
  induction rates using List.reverseRecOn with
  | nil => rfl
  | append_singleton l a ih =>
    have hfold : runZeroCount 0 (l ++ [a]) =
        updateZeroCount (runZeroCount 0 l) a := by
      simp [runZeroCount, List.foldl_append]
    by_cases ha : a = 0
    · subst ha
      have htz : trailingZeroWindows (l ++ [0]) =
          trailingZeroWindows l + 1 := by
        simp [trailingZeroWindows, List.takeWhile]
      rw [hfold, ih, updateZeroCount_zero, htz]
      split <;> omega
    · have htz : trailingZeroWindows (l ++ [a]) = 0 := by
        simp [trailingZeroWindows, List.takeWhile, ha]
      have hupd : updateZeroCount (runZeroCount 0 l) a = 0 := by
        unfold updateZeroCount
        rw [if_neg ha]
      rw [hfold, hupd, htz]
      simp

theorem updateHealthModel_sensorFault (cpm z : Nat) (t : ℚ)
    (fr : FailReason) (ls now : Nat) :
    (updateHealthModel cpm z t fr ls now).sensorFault =
      decide (z ≥ ZERO_CPM_FAULT_COUNT) := rfl

theorem updateHealthModel_netOK (cpm z : Nat) (t : ℚ)
    (fr : FailReason) (ls now : Nat) :
    (updateHealthModel cpm z t fr ls now).netOK =
      (if fr = FAIL_DHCP then false
       else if ls = 0 then false
       else decide (usub32 now ls ≤ RADMON_FAIL_TIMEOUT_MS)) := rfl

theorem updateHealthModel_level (cpm z : Nat) (t : ℚ)
    (fr : FailReason) (ls now : Nat) :
    (updateHealthModel cpm z t fr ls now).level =
      (let h := updateHealthModel cpm z t fr ls now
       let lvl1 := if !h.netOK then max 0 1 else 0
       let lvl2 := if h.sensorFault || h.tempWarn ||
                      decide (h.radState = RAD_WARN) then max lvl1 2 else lvl1
       if h.tempHigh || decide (h.radState = RAD_DANGER) then max lvl2 3
       else lvl2) := rfl

theorem levelFold (n f2 f3 : Bool) :
    (let lvl1 := if !n then max 0 1 else 0
     let lvl2 := if f2 then max lvl1 2 else lvl1
     if f3 then max lvl2 3 else lvl2) =
      max (if n then 0 else 1) (max (if f2 then 2 else 0)
        (if f3 then 3 else 0)) := by
  cases n <;> cases f2 <;> cases f3 <;> rfl

theorem updateHealthModel_level_max (cpm z : Nat) (t : ℚ)
    (fr : FailReason) (ls now : Nat) :
    (updateHealthModel cpm z t fr ls now).level =
      max (if (updateHealthModel cpm z t fr ls now).netOK then 0 else 1)
        (max
          (if (updateHealthModel cpm z t fr ls now).sensorFault ||
              (updateHealthModel cpm z t fr ls now).tempWarn ||
              decide ((updateHealthModel cpm z t fr ls now).radState = RAD_WARN)
           then 2 else 0)
          (if (updateHealthModel cpm z t fr ls now).tempHigh ||
              decide ((updateHealthModel cpm z t fr ls now).radState = RAD_DANGER)
           then 3 else 0)) := by
  rw [updateHealthModel_level]
  exact levelFold _ _ _

/-! ## Claims -/

/-- Claim C1: `updateHealthModel` sets the level to exactly the maximum
of the triggered floors — floor 1 when `netOK` is false, floor 2 when
`sensorFault` or ambient warn or band Warn, floor 3 when ambient
critical or band Danger, 0 when none — where `netOK` is false exactly
when the most recent failure reason is `FAIL_DHCP`, or no successful
upload ever occurred (`lastSuccessMillis = 0`), or the (unsigned
32-bit) time since the last successful upload exceeds the 15-minute
staleness timeout; the level is never below any triggered floor. -/
theorem claim_C1 : ∀ (cpm z : Nat) (t : ℚ) (fr : FailReason)
    (ls now : Nat),
    let h := updateHealthModel cpm z t fr ls now
    (h.netOK = false ↔
      (fr = FAIL_DHCP ∨ ls = 0 ∨
        RADMON_FAIL_TIMEOUT_MS < usub32 now ls)) ∧
    h.level = max (if h.netOK then 0 else 1)
      (max (if h.sensorFault || h.tempWarn || decide (h.radState = RAD_WARN)
            then 2 else 0)
           (if h.tempHigh || decide (h.radState = RAD_DANGER)
            then 3 else 0)) ∧
    (h.netOK = false → 1 ≤ h.level) ∧
    ((h.sensorFault || h.tempWarn || decide (h.radState = RAD_WARN)) = true →
      2 ≤ h.level) ∧
    ((h.tempHigh || decide (h.radState = RAD_DANGER)) = true →
      3 ≤ h.level) := by
  intro cpm z t fr ls now
  intro h
  have hnet : h.netOK =
      (if fr = FAIL_DHCP then false
       else if ls = 0 then false
       else decide (usub32 now ls ≤ RADMON_FAIL_TIMEOUT_MS)) :=
    updateHealthModel_netOK cpm z t fr ls now
  have hlev : h.level = max (if h.netOK then 0 else 1)
      (max (if h.sensorFault || h.tempWarn || decide (h.radState = RAD_WARN)
            then 2 else 0)
           (if h.tempHigh || decide (h.radState = RAD_DANGER)
            then 3 else 0)) :=
    updateHealthModel_level_max cpm z t fr ls now
  refine ⟨?_, hlev, ?_, ?_, ?_⟩
  · rw [hnet]
    split_ifs with h1 h2
    · simp [h1]
    · simp [h2]
    · simp only [decide_eq_false_iff_not, Nat.not_le]
      constructor
      · intro hlt
        exact Or.inr (Or.inr hlt)
      · rintro (hfr | hls | hlt)
        · exact absurd hfr h1
        · exact absurd hls h2
        · exact hlt
  · intro hf
    rw [hlev, hf]
    simp only [Bool.false_eq_true, if_false]
    exact le_max_left _ _
  · intro hf
    rw [hlev, hf]
    simp only [if_true]
    exact le_trans (le_max_left 2 _) (le_max_right _ _)
  · intro hf
    rw [hlev, hf]
    simp only [if_true]
    exact le_trans (le_max_right _ 3) (le_max_right _ _)

/-- Witness for C1: a stale last success (20 minutes old) with a Danger
rate drives level 3, with floors 1 and 3 both triggered. -/
theorem claim_C1_witness :
    ((updateHealthModel 300 0 25 FAIL_NONE 1 1200001).netOK = false ↔
      (FAIL_NONE = FAIL_DHCP ∨ (1 : Nat) = 0 ∨
        RADMON_FAIL_TIMEOUT_MS < usub32 1200001 1)) ∧
    1 ≤ (updateHealthModel 300 0 25 FAIL_NONE 1 1200001).level ∧
    3 ≤ (updateHealthModel 300 0 25 FAIL_NONE 1 1200001).level :=
  ⟨(claim_C1 300 0 25 FAIL_NONE 1 1200001).1,
   (claim_C1 300 0 25 FAIL_NONE 1 1200001).2.2.1
     ((claim_C1 300 0 25 FAIL_NONE 1 1200001).1.mpr (by decide)),
   (claim_C1 300 0 25 FAIL_NONE 1 1200001).2.2.2.2 (by decide)⟩

/-- Claim C2: the rate classifier `getRadiationState` is a pure total
function: for every rate it returns exactly one band, characterised by
Danger iff `rate ≥ 275`, Warn iff `100 ≤ rate < 275`, Normal iff
`20 ≤ rate ≤ 40`, and Low otherwise; in particular every rate strictly
between 40 and 100 (for example 50) is Low. -/
theorem claim_C2 : ∀ r : Nat,
    (getRadiationState r = RAD_DANGER ↔ 275 ≤ r) ∧
    (getRadiationState r = RAD_WARN ↔ 100 ≤ r ∧ r < 275) ∧
    (getRadiationState r = RAD_NORMAL ↔ 20 ≤ r ∧ r ≤ 40) ∧
    (getRadiationState r = RAD_LOW ↔ r < 20 ∨ (40 < r ∧ r < 100)) ∧
    getRadiationState 50 = RAD_LOW := by
  intro r
  unfold getRadiationState CPM_DANGER_THRESHOLD CPM_WARN_THRESHOLD
    CPM_NORMAL_MIN CPM_NORMAL_MAX
  refine ⟨?_, ?_, ?_, ?_, by decide⟩ <;>
    split_ifs <;> simp_all <;> omega

/-- Claim C4: when the scaled rate `counts * multiplier` (32-bit
arithmetic) exceeds the plausibility ceiling `CPM_MAX_VALID = 50000`,
the computed rate is forced to exactly 0, the window increments the
zero-rate streak (whenever it is below its saturation bound), and the
streak update is identical to that of a genuinely silent window. -/
theorem claim_C4 : ∀ rawCounts z : Nat,
    CPM_MAX_VALID < rawCounts * multiplier % u32 →
    computeCpm rawCounts = 0 ∧
    (z < 255 → updateZeroCount z (computeCpm rawCounts) = z + 1) ∧
    updateZeroCount z (computeCpm rawCounts) = updateZeroCount z 0 := by
  intro rawCounts z h
  have h0 : computeCpm rawCounts = 0 := by
    unfold computeCpm
    simp only [gt_iff_lt]
    rw [if_pos h]
  refine ⟨h0, ?_, by rw [h0]⟩
  intro hz
  rw [h0, updateZeroCount_zero, if_pos hz]

/-- Witness for C4 at the raw count 50001 and streak 0. -/
theorem claim_C4_witness :
    CPM_MAX_VALID < 50001 * multiplier % u32 ∧
    computeCpm 50001 = 0 ∧
    updateZeroCount 0 (computeCpm 50001) = 1 ∧
    updateZeroCount 0 (computeCpm 50001) = updateZeroCount 0 0 :=
  ⟨by decide, (claim_C4 50001 0 (by decide)).1,
   (claim_C4 50001 0 (by decide)).2.1 (by decide),
   (claim_C4 50001 0 (by decide)).2.2⟩

/-- Claim C10: the zero-rate streak counter is saturating — it is
incremented only while strictly below 255, never exceeds 255, and a
zero window never wraps it around to 0; consequently under any run of
consecutive zero-rate windows starting from a faulted streak,
`sensorFault` stays continuously true. -/
theorem claim_C10 : ∀ (z n cpm : Nat) (t : ℚ) (fr : FailReason)
    (ls now : Nat), z ≤ 255 →
    (updateZeroCount z 0 = if z < 255 then z + 1 else z) ∧
    updateZeroCount z 0 ≤ 255 ∧
    1 ≤ updateZeroCount z 0 ∧
    (ZERO_CPM_FAULT_COUNT ≤ z →
      (updateHealthModel cpm (runZeroCount z (List.replicate n 0))
        t fr ls now).sensorFault = true) := by
  intro z n cpm t fr ls now hz
  refine ⟨updateZeroCount_zero z, ?_, ?_, ?_⟩
  · rw [updateZeroCount_zero]; split <;> omega
  · rw [updateZeroCount_zero]; split <;> omega
  · intro h3
    rw [updateHealthModel_sensorFault,
        runZeroCount_replicate_zero n z hz]
    have h5 : ZERO_CPM_FAULT_COUNT = 3 := rfl
    rw [h5] at h3 ⊢
    simp only [ge_iff_le, decide_eq_true_eq]
    rcases Nat.le_total (z + n) 255 with h6 | h6
    · rw [min_eq_left h6]; omega
    · rw [min_eq_right h6]; omega

/-- Claim C5: over any sequence of windows from boot, `sensorFault` is
true exactly when the consecutive zero-rate streak has reached the
threshold `ZERO_CPM_FAULT_COUNT = 3`; any window with a non-zero rate
resets the streak to 0 and `sensorFault` is false on that same
cycle. -/
theorem claim_C5 : ∀ (rates : List Nat) (cpm : Nat) (t : ℚ)
    (fr : FailReason) (ls now : Nat),
    ((updateHealthModel cpm (runZeroCount 0 rates) t fr ls now).sensorFault
        = true ↔ ZERO_CPM_FAULT_COUNT ≤ trailingZeroWindows rates) ∧
    (∀ z r : Nat, r ≠ 0 →
      updateZeroCount z r = 0 ∧
      (updateHealthModel r (updateZeroCount z r) t fr ls now).sensorFault
        = false) := by
  intro rates cpm t fr ls now
  constructor
  · rw [updateHealthModel_sensorFault, runZeroCount_trailing]
    have h5 : ZERO_CPM_FAULT_COUNT = 3 := rfl
    rw [h5]
    simp only [ge_iff_le, decide_eq_true_eq]
    rcases Nat.le_total (trailingZeroWindows rates) 255 with h | h
    · rw [min_eq_left h]
    · rw [min_eq_right h]
      constructor <;> intro <;> omega
  · intro z r hr
    have h0 : updateZeroCount z r = 0 := by
      unfold updateZeroCount
      rw [if_neg hr]
    refine ⟨h0, ?_⟩
    rw [h0, updateHealthModel_sensorFault]
    decide

/-- Witness for C5: three silent windows trip the fault; a non-zero
window clears it on the same cycle. -/
theorem claim_C5_witness :
    (updateHealthModel 0 (runZeroCount 0 [0, 0, 0]) 25 FAIL_NONE 1 2).sensorFault
      = true ∧
    updateZeroCount 7 30 = 0 ∧
    (updateHealthModel 30 (updateZeroCount 7 30) 25 FAIL_NONE 1 2).sensorFault
      = false :=
  ⟨(claim_C5 [0, 0, 0] 0 25 FAIL_NONE 1 2).1.mpr (by decide),
   ((claim_C5 [0, 0, 0] 0 25 FAIL_NONE 1 2).2 7 30 (by decide)).1,
   ((claim_C5 [0, 0, 0] 0 25 FAIL_NONE 1 2).2 7 30 (by decide)).2⟩

/-- Witness for C10 at streak 3 and 300 further silent windows. -/
theorem claim_C10_witness :
    (3 : Nat) ≤ 255 ∧ ZERO_CPM_FAULT_COUNT ≤ 3 ∧
    (updateHealthModel 0 (runZeroCount 3 (List.replicate 300 0))
      25 FAIL_NONE 1 2).sensorFault = true :=
  ⟨by decide, by decide,
   (claim_C10 3 300 0 25 FAIL_NONE 1 2 (by decide)).2.2.2 (by decide)⟩

/-- Claim C8: the indicator maps level 0 to solid green, 1 to solid
yellow, 2 to solid red, 3 to flashing red; entering any state sets the
channels with the output on and resets the flash-phase timer; the
flashing flag is true only at level 3; `ledTick` is a no-op whenever
not flashing and, while flashing, toggles the output exactly when at
least `LED_FLASH_PERIOD = 500` ms (unsigned 32-bit difference) have
elapsed since the last toggle. -/
theorem claim_C8 : ∀ (lvl now : Nat) (st : LedSt),
    updateStatusLED 0 now = ⟨false, true, false, false, true, now⟩ ∧
    updateStatusLED 1 now = ⟨true, true, false, false, true, now⟩ ∧
    updateStatusLED 2 now = ⟨true, false, false, false, true, now⟩ ∧
    updateStatusLED 3 now = ⟨true, false, false, true, true, now⟩ ∧
    ((updateStatusLED lvl now).ledFlash = true ↔ lvl = 3) ∧
    (updateStatusLED lvl now).ledOn = true ∧
    (updateStatusLED lvl now).ledLastToggle = now ∧
    applyLed (updateStatusLED lvl now) =
      ((updateStatusLED lvl now).ledR, (updateStatusLED lvl now).ledG,
       (updateStatusLED lvl now).ledB) ∧
    (st.ledFlash = false → ledTick now st = st) ∧
    (st.ledFlash = true →
      LED_FLASH_PERIOD ≤ usub32 now st.ledLastToggle →
      ledTick now st =
        { st with ledLastToggle := now, ledOn := !st.ledOn }) ∧
    (st.ledFlash = true →
      usub32 now st.ledLastToggle < LED_FLASH_PERIOD →
      ledTick now st = st) := by
  intro lvl now st
  refine ⟨rfl, rfl, rfl, rfl, ?_, ?_, ?_, ?_, ?_, ?_, ?_⟩
  · rcases lvl with _ | _ | _ | _ | n <;>
      simp [updateStatusLED, setLedState]
  · rcases lvl with _ | _ | _ | _ | n <;> rfl
  · rcases lvl with _ | _ | _ | _ | n <;> rfl
  · rcases lvl with _ | _ | _ | _ | n <;> rfl
  · intro hf
    simp [ledTick, hf]
  · intro hf h2
    simp [ledTick, hf, ge_iff_le, h2]
  · intro hf h2
    simp [ledTick, hf, ge_iff_le, Nat.not_le.mpr h2]

/-- Witness for C8: a non-flashing state ignores the tick; a flashing
state toggles after 1000 ms and holds within 100 ms. -/
theorem claim_C8_witness :
    ledTick 1000 ⟨true, false, false, false, true, 0⟩ =
      ⟨true, false, false, false, true, 0⟩ ∧
    ledTick 1000 ⟨true, false, false, true, true, 0⟩ =
      ⟨true, false, false, true, false, 1000⟩ ∧
    ledTick 100 ⟨true, false, false, true, true, 0⟩ =
      ⟨true, false, false, true, true, 0⟩ :=
  ⟨(claim_C8 0 1000 ⟨true, false, false, false, true, 0⟩).2.2.2.2.2.2.2.2.1 rfl,
   (claim_C8 0 1000 ⟨true, false, false, true, true, 0⟩).2.2.2.2.2.2.2.2.2.1
     rfl (by decide),
   (claim_C8 0 100 ⟨true, false, false, true, true, 0⟩).2.2.2.2.2.2.2.2.2.2
     rfl (by decide)⟩

/-- Claim C9: the heartbeat `sendStatusPing` never modifies
`lastFailReason`, `lastSuccessMillis`, or `lastHttpStatusCode`,
whatever its own outcome (link down, missing secret, connect failure,
or any response). -/
theorem claim_C9 : ∀ (linkOn secretSet connectOk : Bool)
    (response : List Char) (st : NetSt),
    (sendStatusPing linkOn secretSet connectOk response st).lastFailReason
      = st.lastFailReason ∧
    (sendStatusPing linkOn secretSet connectOk response st).lastSuccessMillis
      = st.lastSuccessMillis ∧
    (sendStatusPing linkOn secretSet connectOk response st).lastHttpStatusCode
      = st.lastHttpStatusCode := by
  intro linkOn secretSet connectOk response st
  unfold sendStatusPing
  split_ifs <;> simp

/-- Claim C7: after every primary upload attempt, a parsed 200/204 sets
`FAIL_NONE` and stamps `lastSuccessMillis`; a connection with any
other code (the parser's 0 included) sets `FAIL_NO_OK` and leaves
`lastSuccessMillis` unchanged; a failed connection sets
`FAIL_CONNECT`, records status code 0, and leaves `lastSuccessMillis`
unchanged. -/
theorem claim_C7 : ∀ (connectOk : Bool) (response : List Char)
    (now : Nat) (st : NetSt),
    let st' := uploadToRadmon connectOk response now st
    (connectOk = true →
      (readHttpStatusCode response [] = 200 ∨
       readHttpStatusCode response [] = 204) →
      st'.lastFailReason = FAIL_NONE ∧ st'.lastSuccessMillis = now ∧
      st'.lastHttpStatusCode = readHttpStatusCode response []) ∧
    (connectOk = true →
      ¬(readHttpStatusCode response [] = 200 ∨
        readHttpStatusCode response [] = 204) →
      st'.lastFailReason = FAIL_NO_OK ∧
      st'.lastSuccessMillis = st.lastSuccessMillis ∧
      st'.lastHttpStatusCode = readHttpStatusCode response []) ∧
    (connectOk = false →
      st'.lastFailReason = FAIL_CONNECT ∧ st'.lastHttpStatusCode = 0 ∧
      st'.lastSuccessMillis = st.lastSuccessMillis) := by
  intro connectOk response now st
  intro st'
  refine ⟨?_, ?_, ?_⟩
  · intro hc hok
    have : st' = uploadToRadmon connectOk response now st := rfl
    rw [this, hc]
    simp [uploadToRadmon, if_pos hok]
  · intro hc hok
    have : st' = uploadToRadmon connectOk response now st := rfl
    rw [this, hc]
    simp [uploadToRadmon, if_neg hok]
  · intro hc
    have : st' = uploadToRadmon connectOk response now st := rfl
    rw [this, hc]
    simp [uploadToRadmon]

/-- Witness for C7: a 204 reply, a 500 reply, and a failed connect,
each against the same prior state. -/
theorem claim_C7_witness :
    (uploadToRadmon true ("HTTP/1.1 204 No Content\r\n\r\n").toList 777
      ⟨FAIL_CONNECT, 0, 0, 5⟩).lastFailReason = FAIL_NONE ∧
    (uploadToRadmon true ("HTTP/1.1 204 No Content\r\n\r\n").toList 777
      ⟨FAIL_CONNECT, 0, 0, 5⟩).lastSuccessMillis = 777 ∧
    (uploadToRadmon true ("HTTP/1.1 500 Oops\r\n").toList 777
      ⟨FAIL_NONE, 204, 0, 5⟩).lastFailReason = FAIL_NO_OK ∧
    (uploadToRadmon true ("HTTP/1.1 500 Oops\r\n").toList 777
      ⟨FAIL_NONE, 204, 0, 5⟩).lastSuccessMillis = 5 ∧
    (uploadToRadmon false [] 777
      ⟨FAIL_NONE, 204, 0, 5⟩).lastFailReason = FAIL_CONNECT ∧
    (uploadToRadmon false [] 777
      ⟨FAIL_NONE, 204, 0, 5⟩).lastHttpStatusCode = 0 ∧
    (uploadToRadmon false [] 777
      ⟨FAIL_NONE, 204, 0, 5⟩).lastSuccessMillis = 5 := by
  have h204 := (claim_C7 true ("HTTP/1.1 204 No Content\r\n\r\n").toList 777
    ⟨FAIL_CONNECT, 0, 0, 5⟩).1 rfl (by decide)
  have h500 := (claim_C7 true ("HTTP/1.1 500 Oops\r\n").toList 777
    ⟨FAIL_NONE, 204, 0, 5⟩).2.1 rfl (by decide)
  have hcf := (claim_C7 false [] 777 ⟨FAIL_NONE, 204, 0, 5⟩).2.2 rfl
  exact ⟨h204.1, h204.2.1, h500.1, h500.2.1, hcf.1, hcf.2.1, hcf.2.2⟩

theorem runPulse_append (s : PulseSt) (l1 l2 : List PulseEv) :
    runPulse s (l1 ++ l2) = runPulse (runPulse s l1) l2 :=
  List.foldl_append _ _ _ _

theorem runPulse_replicate_pulse (n : Nat) : ∀ s : PulseSt,
    s.counts < u32 →
    runPulse s (List.replicate n PulseEv.pulse) =
      { s with counts := (s.counts + n) % u32 } := by
  induction n with
  | zero =>
    intro s h
    simp [runPulse, Nat.mod_eq_of_lt h]
  | succ n ih =>
    intro s h
    rw [List.replicate_succ]
    have hstep : runPulse s (PulseEv.pulse :: List.replicate n PulseEv.pulse)
        = runPulse { s with counts := (s.counts + 1) % u32 }
            (List.replicate n PulseEv.pulse) := rfl
    rw [hstep, ih _ (Nat.mod_lt _ (by decide))]
    have : ((s.counts + 1) % u32 + n) % u32 = (s.counts + (n + 1)) % u32 := by
      rw [Nat.mod_add_mod]
      congr 1
      omega
    rw [this]

/-- Claim C3 counterexample: the drain in `loop()` is the plain
read-then-reset `cpm = counts * multiplier; counts = 0;` with
interrupts enabled; the interleaving in which `tube_impulse` fires
between the read and the reset loses that pulse, refuting "no pulse
can be lost ... for every interleaving". -/
theorem claim_C3_counterexample : ¬ drainAccounted 0 0 1 0 := by
  unfold drainAccounted
  decide

/-- Claim C3 amended: the drain is a non-atomic read followed by a
reset; the rate uses exactly the counter value at the read (the
initial count plus the pulses before the read, so no pulse is ever
double-counted), pulses after the reset carry into the next window,
and precisely the pulses arriving between the read and the reset are
lost. -/
theorem claim_C3_amended : ∀ init before mid after : Nat,
    init + before < u32 → after < u32 →
    (runPulse ⟨init, 0⟩ (drainSchedule before mid after)).drained
      = init + before ∧
    (runPulse ⟨init, 0⟩ (drainSchedule before mid after)).counts = after ∧
    (runPulse ⟨init, 0⟩ (drainSchedule before mid after)).drained +
      (runPulse ⟨init, 0⟩ (drainSchedule before mid after)).counts + mid =
      init + (before + mid + after) := by
  intro init before mid after h1 h2
  have h0 : init < u32 := by omega
  have e1 : runPulse ⟨init, 0⟩ (List.replicate before PulseEv.pulse)
      = ⟨init + before, 0⟩ := by
    rw [runPulse_replicate_pulse before ⟨init, 0⟩ h0]
    show (⟨(init + before) % u32, 0⟩ : PulseSt) = ⟨init + before, 0⟩
    rw [Nat.mod_eq_of_lt h1]
  have e2 : runPulse (⟨init + before, 0⟩ : PulseSt) [PulseEv.read]
      = ⟨init + before, init + before⟩ := rfl
  have e3 : runPulse (⟨init + before, init + before⟩ : PulseSt)
      (List.replicate mid PulseEv.pulse)
      = ⟨(init + before + mid) % u32, init + before⟩ :=
    runPulse_replicate_pulse mid ⟨init + before, init + before⟩ h1
  have e4 : runPulse (⟨(init + before + mid) % u32, init + before⟩ : PulseSt)
      [PulseEv.reset] = ⟨0, init + before⟩ := rfl
  have e5 : runPulse (⟨0, init + before⟩ : PulseSt)
      (List.replicate after PulseEv.pulse) = ⟨after, init + before⟩ := by
    rw [runPulse_replicate_pulse after ⟨0, init + before⟩
      (show (0 : Nat) < u32 by decide)]
    show (⟨(0 + after) % u32, init + before⟩ : PulseSt)
      = ⟨after, init + before⟩
    rw [Nat.zero_add, Nat.mod_eq_of_lt h2]
  have e : runPulse ⟨init, 0⟩ (drainSchedule before mid after)
      = ⟨after, init + before⟩ := by
    unfold drainSchedule
    rw [runPulse_append, runPulse_append, runPulse_append, runPulse_append,
        e1, e2, e3, e4, e5]
  rw [e]
  refine ⟨rfl, rfl, ?_⟩
  show (init + before) + after + mid = init + (before + mid + after)
  omega

/-- Witness for the amended C3 at one pulse before the read, two
between read and reset, three after the reset. -/
theorem claim_C3_amended_witness :
    (10 : Nat) + 1 < u32 ∧ (3 : Nat) < u32 ∧
    (runPulse ⟨10, 0⟩ (drainSchedule 1 2 3)).drained = 11 ∧
    (runPulse ⟨10, 0⟩ (drainSchedule 1 2 3)).counts = 3 ∧
    (runPulse ⟨10, 0⟩ (drainSchedule 1 2 3)).drained +
      (runPulse ⟨10, 0⟩ (drainSchedule 1 2 3)).counts + 2 = 10 + (1 + 2 + 3) :=
  ⟨by decide, by decide,
   (claim_C3_amended 10 1 2 3 (by decide) (by decide)).1,
   (claim_C3_amended 10 1 2 3 (by decide) (by decide)).2.1,
   (claim_C3_amended 10 1 2 3 (by decide) (by decide)).2.2⟩

theorem readHttp_filter_cr (s : List Char) : ∀ buf : List Char,
    readHttpStatusCode (s.filter (fun c => decide (c ≠ '\r'))) buf =
      readHttpStatusCode s buf := by
  induction s with
  | nil => intro buf; rfl
  | cons c rest ih =>
    intro buf
    by_cases hr : c = '\r'
    · subst hr
      have hfe : ('\r' :: rest).filter (fun c => decide (c ≠ '\r')) =
          rest.filter (fun c => decide (c ≠ '\r')) := by
        simp
      rw [hfe, ih buf]
      conv_rhs => rw [readHttpStatusCode]
      rw [if_pos rfl]
    · rw [List.filter_cons]
      have hkeep : (decide (c ≠ '\r')) = true := by
        simp [hr]
      rw [if_pos hkeep]
      conv_lhs => rw [readHttpStatusCode]
      conv_rhs => rw [readHttpStatusCode]
      rw [if_neg hr, if_neg hr]
      by_cases hn : c = '\n'
      · rw [if_pos hn, if_pos hn]
        by_cases hm : buf.take 5 = httpMagic
        · rw [if_pos hm, if_pos hm]
          cases hA : afterFirstSpace buf with
          | some t => rfl
          | none => exact ih []
        · rw [if_neg hm, if_neg hm]
          exact ih []
      · rw [if_neg hn, if_neg hn]
        by_cases hlen : buf.length < 63
        · rw [if_pos hlen, if_pos hlen]
          exact ih (buf ++ [c])
        · rw [if_neg hlen, if_neg hlen]
          exact ih buf

theorem readHttp_no_magic (s : List Char) : ∀ buf : List Char,
    (∀ l ∈ completedLines buf s, l.take 5 ≠ httpMagic) →
    readHttpStatusCode s buf = 0 := by
  induction s with
  | nil => intro buf _; rfl
  | cons c rest ih =>
    intro buf hl
    rw [completedLines] at hl
    rw [readHttpStatusCode]
    by_cases hr : c = '\r'
    · rw [if_pos hr]
      rw [if_pos hr] at hl
      exact ih buf hl
    · rw [if_neg hr]
      rw [if_neg hr] at hl
      by_cases hn : c = '\n'
      · rw [if_pos hn]
        rw [if_pos hn] at hl
        have hbuf : buf.take 5 ≠ httpMagic := hl buf (List.mem_cons_self _ _)
        rw [if_neg hbuf]
        exact ih [] (fun l hmem => hl l (List.mem_cons_of_mem _ hmem))
      · rw [if_neg hn]
        rw [if_neg hn] at hl
        by_cases hlen : buf.length < 63
        · rw [if_pos hlen]
          rw [if_pos hlen] at hl
          exact ih (buf ++ [c]) hl
        · rw [if_neg hlen]
          rw [if_neg hlen] at hl
          exact ih buf hl

theorem readHttp_first_magic (s : List Char) : ∀ (buf l t : List Char),
    (completedLines buf s).find? (fun x => x.take 5 == httpMagic) = some l →
    afterFirstSpace l = some t →
    readHttpStatusCode s buf = atoiInt t := by
  induction s with
  | nil =>
    intro buf l t hf _
    rw [completedLines] at hf
    simp at hf
  | cons c rest ih =>
    intro buf l t hf hsp
    rw [completedLines] at hf
    rw [readHttpStatusCode]
    by_cases hr : c = '\r'
    · rw [if_pos hr]
      rw [if_pos hr] at hf
      exact ih buf l t hf hsp
    · rw [if_neg hr]
      rw [if_neg hr] at hf
      by_cases hn : c = '\n'
      · rw [if_pos hn]
        rw [if_pos hn] at hf
        by_cases hm : buf.take 5 = httpMagic
        · rw [if_pos hm]
          have hb : (buf.take 5 == httpMagic) = true := beq_iff_eq.mpr hm
          simp only [List.find?_cons, hb] at hf
          have hbl : buf = l := by
            injection hf
          subst hbl
          rw [hsp]
        · rw [if_neg hm]
          have hb : (buf.take 5 == httpMagic) = false := by
            simp [hm]
          simp only [List.find?_cons, hb] at hf
          exact ih [] l t hf hsp
      · rw [if_neg hn]
        rw [if_neg hn] at hf
        by_cases hlen : buf.length < 63
        · rw [if_pos hlen]
          rw [if_pos hlen] at hf
          exact ih (buf ++ [c]) l t hf hsp
        · rw [if_neg hlen]
          rw [if_neg hlen] at hf
          exact ih buf l t hf hsp

/-- A NUL byte stored in the buffer before any space stops the
`strchr` scan, so the parser skips that line (`p == NULL` path) and
takes the status from the next `HTTP/` line. -/
theorem readHttp_nul_blocked_line :
    readHttpStatusCode ("HTTP/\x00 99\nHTTP/1.1 200\n").toList [] = 200 := by
  decide

/-- Claim C6: `readHttpStatusCode` ignores CR bytes, treats LF as the
line terminator, and returns the integer following the first space of
the first completed line beginning with `"HTTP/"` (the first space of
the line read as a C string: `strchr` stops at the first NUL byte
stored in the buffer); feeding `"HTTP/1.1 204 No Content\r\n\r\n"`
yields 204; and with no data at all, or a body in which no line
begins with `"HTTP/"`, it returns 0. -/
theorem claim_C6 :
    readHttpStatusCode ("HTTP/1.1 204 No Content\r\n\r\n").toList [] = 204 ∧
    readHttpStatusCode [] [] = 0 ∧
    (∀ s : List Char,
      readHttpStatusCode (s.filter (fun c => decide (c ≠ '\r'))) [] =
        readHttpStatusCode s []) ∧
    (∀ s : List Char, (∀ l ∈ completedLines [] s, l.take 5 ≠ httpMagic) →
      readHttpStatusCode s [] = 0) ∧
    (∀ s l t : List Char,
      (completedLines [] s).find? (fun x => x.take 5 == httpMagic) = some l →
      afterFirstSpace l = some t →
      readHttpStatusCode s [] = atoiInt t) := by
  refine ⟨by decide, rfl, ?_, ?_, ?_⟩
  · intro s
    exact readHttp_filter_cr s []
  · intro s hs
    exact readHttp_no_magic s [] hs
  · intro s l t hf hsp
    exact readHttp_first_magic s [] l t hf hsp

/-- Witness for C6: a reply whose status line is preceded by a junk
line parses to 500 through the first-`HTTP/`-line clause, and a
status-line-free body parses to 0. -/
theorem claim_C6_witness :
    readHttpStatusCode ("xy\nHTTP/1.1 500 Oops\nHTTP/1.1 204\n").toList []
      = atoiInt ("500 Oops").toList ∧
    readHttpStatusCode ("hello\nworld\n").toList [] = 0 :=
  ⟨claim_C6.2.2.2.2 ("xy\nHTTP/1.1 500 Oops\nHTTP/1.1 204\n").toList
     ("HTTP/1.1 500 Oops").toList ("500 Oops").toList (by decide) (by decide),
   claim_C6.2.2.2.1 ("hello\nworld\n").toList (by decide)⟩

end Parrot
